import Mathlib

/-!
Shallow embedding of the qmc5883l-rs driver (src/lib.rs and src/registers.rs):
a register-protocol driver for the QMC5883L magnetometer over I2C.

Modelling conventions:
* Rust `u8` values are `Nat`s; every byte produced by the embedded code is
  provably < 256 (no wrap-around occurs in the source arithmetic).
* `i16` results are `Int`s in [-32768, 32767].
* A Rust panic (`Option::unwrap` on `None`) is modelled by the `PanicOr.panicked`
  constructor: the function does not return a value to its caller.
* The I2C bus (the `embedded_hal::i2c::I2c` collaborator) is modelled as an
  oracle that, given the history of transactions issued so far and the next
  transaction, either fails with an opaque transport error or supplies the
  byte stream the device would answer with.  The driver records every
  transaction it issues in `St.hist`, most recent last.
* `bytemuck::cast : [u8; 2] -> i16` is modelled for a little-endian target
  (the usual case for the embedded platforms this `no_std` crate targets,
  e.g. the RP2040 used by its own test suite): the first array element is
  the least-significant byte.
-/

/-- The Output Data Rate of the device (lib.rs, enum `OutputDataRate`). -/
inductive OutputDataRate
  | OSR10
  | OSR50
  | OSR100
  | OSR200
deriving DecidableEq

/-- The Oversample Ratio of the device (lib.rs, enum `OverSampleRatio`;
the trailing word of the Rust name is shortened here). -/
inductive OverSampleR
  | OSR512
  | OSR256
  | OSR128
  | OSR64
deriving DecidableEq

/-- The full-scale range of the device (lib.rs, enum `FullScale`). -/
inductive FullScale
  | RNG2G
  | RNG8G
deriving DecidableEq

/-- Discriminant of `OutputDataRate` (the Rust `as u8` value). -/
def OutputDataRate.code : OutputDataRate → Nat
  | .OSR10 => 0b00
  | .OSR50 => 0b01
  | .OSR100 => 0b10
  | .OSR200 => 0b11

/-- Discriminant of `OverSampleRatio` (the Rust `as u8` value). -/
def OverSampleR.code : OverSampleR → Nat
  | .OSR512 => 0b00
  | .OSR256 => 0b01
  | .OSR128 => 0b10
  | .OSR64 => 0b11

/-- Discriminant of `FullScale` (the Rust `as u8` value). -/
def FullScale.code : FullScale → Nat
  | .RNG2G => 0b00
  | .RNG8G => 0b01

/-- `enumn`-derived `OutputDataRate::n`: the variant with the given
discriminant, if any. -/
def OutputDataRate.n : Nat → Option OutputDataRate
  | 0b00 => some .OSR10
  | 0b01 => some .OSR50
  | 0b10 => some .OSR100
  | 0b11 => some .OSR200
  | _ => none

/-- `enumn`-derived `OverSampleRatio::n`. -/
def OverSampleR.n : Nat → Option OverSampleR
  | 0b00 => some .OSR512
  | 0b01 => some .OSR256
  | 0b10 => some .OSR128
  | 0b11 => some .OSR64
  | _ => none

/-- `enumn`-derived `FullScale::n`: only `0b00` and `0b01` are defined. -/
def FullScale.n : Nat → Option FullScale
  | 0b00 => some .RNG2G
  | 0b01 => some .RNG8G
  | _ => none

/-- The `Settings` struct (lib.rs): output data rate, oversample ratio,
full-scale range. -/
structure Settings where
  odr : OutputDataRate
  osr : OverSampleR
  rng : FullScale
deriving DecidableEq

/-- `Settings::default()`: `#[default]` variants are OSR10, OSR64, RNG2G. -/
def Settings.default : Settings :=
  { odr := .OSR10, osr := .OSR64, rng := .RNG2G }

/-- `Settings::ADDR` (lib.rs line 77): the Settings register address. -/
def Settings.regaddr : Nat := 0x09

/-- `impl From<Settings> for u8` (lib.rs lines 80-90): pack the three fields
and add 1 for continuous measurement mode.  The additions hit disjoint bit
ranges, so no `u8` overflow occurs (the value is at most 221). -/
def u8_from_settings (set : Settings) : Nat :=
  0 + (set.odr.code <<< 2) + (set.rng.code <<< 4) + (set.osr.code <<< 6) + 1

/-- Result of a Rust computation that can panic instead of returning. -/
inductive PanicOr (α : Type)
  | panicked
  | ok (a : α)
deriving DecidableEq

/-- `Option::unwrap`: a panic on `None`. -/
def unwrapOr {α : Type} : Option α → PanicOr α
  | some a => .ok a
  | none => .panicked

/-- `impl From<u8> for Settings` (lib.rs lines 92-100), exactly as written:
`odr` is taken from bits [7:6], `rng` from bits [5:4], `osr` from bits [3:2],
each looked up with `n(..).unwrap()` (a panic when the code is undefined).
The struct fields are evaluated in source order: odr, then rng, then osr. -/
def settings_from_u8 (val : Nat) : PanicOr Settings :=
  match unwrapOr (OutputDataRate.n ((val &&& 0b11000000) >>> 6)) with
  | .panicked => .panicked
  | .ok odr =>
    match unwrapOr (FullScale.n ((val &&& 0b00110000) >>> 4)) with
    | .panicked => .panicked
    | .ok rng =>
      match unwrapOr (OverSampleR.n ((val &&& 0b00001100) >>> 2)) with
      | .panicked => .panicked
      | .ok osr => .ok { odr := odr, osr := osr, rng := rng }

/-- An opaque bus-level failure (`I::Error` of the transport). -/
inductive TransportError
  | fault (code : Nat)
deriving DecidableEq

/-- One I2C transaction issued by the driver: either a plain write of some
bytes, or a write of some bytes immediately followed by a read of
`readLen` bytes (`embedded_hal`'s `write` / `write_read`). -/
inductive Tx
  | write (devAddr : Nat) (bytes : List Nat)
  | writeRead (devAddr : Nat) (outBytes : List Nat) (readLen : Nat)
deriving DecidableEq

/-- The transport collaborator: given the transactions issued so far and the
next transaction, either fail with a transport error or answer with a byte
stream (index `i` is the `i`-th byte read; ignored for plain writes). -/
structure Bus where
  respond : List Tx → Tx → Except TransportError (Nat → Nat)

/-- Driver-side state of `QMC8553L`: the software standby flag, together with
the (model-level) log of transactions issued so far, most recent last. -/
structure St where
  hist : List Tx
  standby : Bool
deriving DecidableEq

/-- Outcome of a driver operation: a value, a propagated transport error, or
a panic. -/
inductive Outcome (α : Type)
  | ok (a : α)
  | err (e : TransportError)
  | panicked
deriving DecidableEq

/-- Modelled from the spec: the device's fixed 7-bit bus address 0x0D
("Register map (7-bit bus address 0x0D)").  The inherent constant
`QMC8553L::ADDR` that `impl Registers for QMC8553L` forwards to
(registers.rs line 165) is not present in the provided source files. -/
def DEV_ADDR : Nat := 0x0D

/-- `Registers::i2c()` for `QMC8553L` (registers.rs lines 167-172): borrowing
the bus handle clears the software standby flag before the transaction runs. -/
def i2cBorrow (st : St) : St := { st with standby := false }

/-- Append an issued transaction to the log. -/
def St.issue (st : St) (tx : Tx) : St := { st with hist := st.hist ++ [tx] }

/-- `Registers::write_raw` (registers.rs lines 95-98): one write transaction
of `[regaddr, val]` to the device address. -/
def write_raw (bus : Bus) (st : St) (regaddr val : Nat) : Outcome Unit × St :=
  let st := i2cBorrow st
  let tx := Tx.write DEV_ADDR [regaddr, val]
  match bus.respond st.hist tx with
  | .ok _ => (.ok (), st.issue tx)
  | .error e => (.err e, st.issue tx)

/-- `Registers::read_raw` (registers.rs lines 87-93): one write-then-read
transaction (write `[regaddr]`, read one byte). -/
def read_raw (bus : Bus) (st : St) (regaddr : Nat) : Outcome Nat × St :=
  let st := i2cBorrow st
  let tx := Tx.writeRead DEV_ADDR [regaddr] 1
  match bus.respond st.hist tx with
  | .ok f => (.ok (f 0 % 256), st.issue tx)
  | .error e => (.err e, st.issue tx)

/-- `bytemuck::cast : [u8; 2] -> i16` on a little-endian target: the first
array element `b0` is the least-significant byte; reinterpret as two's
complement. -/
def bytemuck_cast_i16 (b0 b1 : Nat) : Int :=
  let u := b0 % 256 + 256 * (b1 % 256)
  if u < 32768 then (u : Int) else (u : Int) - 65536

/-- `i16_from_le` (registers.rs lines 78-80), exactly as written: it builds
the array `[val[1], val[0]]` and casts it, so on a little-endian target
`val[1]` becomes the least-significant byte. -/
def i16_from_le (val : List Nat) : Int :=
  bytemuck_cast_i16 (val.getD 1 0) (val.getD 0 0)

/-- The 16-bit registers (registers.rs, enum `Register16`). -/
inductive Register16
  | X
  | Y
  | Z
  | TOUT
deriving DecidableEq

/-- Discriminants of `Register16` (register addresses). -/
def Register16.code : Register16 → Nat
  | .X => 0x00
  | .Y => 0x02
  | .Z => 0x04
  | .TOUT => 0x07

/-- `Registers::read_reg16s` (registers.rs lines 114-120): one write-then-read
transaction of two bytes at the register's LSB address, decoded with
`i16_from_le`. -/
def read_reg16s (bus : Bus) (st : St) (reg : Register16) : Outcome Int × St :=
  let st := i2cBorrow st
  let tx := Tx.writeRead DEV_ADDR [reg.code] 2
  match bus.respond st.hist tx with
  | .ok f => (.ok (i16_from_le [f 0 % 256, f 1 % 256]), st.issue tx)
  | .error e => (.err e, st.issue tx)

/-- `Registers::read_data` (registers.rs lines 125-136): one write-then-read
transaction of six bytes starting at X's address, decoded as three
`i16_from_le` pairs. -/
def read_data (bus : Bus) (st : St) : Outcome (Int × Int × Int) × St :=
  let st := i2cBorrow st
  let tx := Tx.writeRead DEV_ADDR [Register16.code .X] 6
  match bus.respond st.hist tx with
  | .ok f =>
    (.ok (i16_from_le [f 0 % 256, f 1 % 256],
          i16_from_le [f 2 % 256, f 3 % 256],
          i16_from_le [f 4 % 256, f 5 % 256]), st.issue tx)
  | .error e => (.err e, st.issue tx)

/-- The flag registers (registers.rs, enum `FlagRegister`). -/
inductive FlagRegister
  | Status
  | Control2
deriving DecidableEq

/-- Discriminants of `FlagRegister` (register addresses). -/
def FlagRegister.code : FlagRegister → Nat
  | .Status => 0x06
  | .Control2 => 0x0a

/-- Status flag DOR (data skip). -/
def Status.DOR : Nat := 0b100

/-- Status flag OVL (overflow). -/
def Status.OVL : Nat := 0b010

/-- Status flag DRDY (data ready). -/
def Status.DRDY : Nat := 0b001

/-- `bitflags` mask of all defined `Status` bits. -/
def Status.allBits : Nat := 0b111

/-- Control2 flag SOFT_RST. -/
def Control2.SOFT_RST : Nat := 0b10000000

/-- Control2 flag ROL_PNT. -/
def Control2.ROL_PNT : Nat := 0b01000000

/-- Control2 flag INT_ENB. -/
def Control2.INT_ENB : Nat := 0b0001

/-- `bitflags` mask of all defined `Control2` bits. -/
def Control2.allBits : Nat := 0b11000001

/-- `bitflags`' `from_bits_truncate`: keep only the defined bits. -/
def from_bits_truncate (mask v : Nat) : Nat := v &&& mask

/-- `bitflags`' `contains`: all bits of `flag` are set in `v`. -/
def flags_contain (v flag : Nat) : Bool := v &&& flag == flag

/-- `Registers::read_flags` (registers.rs lines 100-102). -/
def read_flags (bus : Bus) (st : St) (reg : FlagRegister) : Outcome Nat × St :=
  read_raw bus st reg.code

/-- `Registers::write_flags` (registers.rs lines 104-106). -/
def write_flags (bus : Bus) (st : St) (reg : FlagRegister) (val : Nat) :
    Outcome Unit × St :=
  write_raw bus st reg.code val

/-- `Registers::get_status` (generated by `flag_getter!`, registers.rs
lines 17-27 and 143): read the Status byte, `from_bits_truncate` it. -/
def get_status (bus : Bus) (st : St) : Outcome Nat × St :=
  match read_flags bus st .Status with
  | (.ok v, st') => (.ok (from_bits_truncate Status.allBits v), st')
  | (.err e, st') => (.err e, st')
  | (.panicked, st') => (.panicked, st')

/-- `Registers::set_control2` (generated by `flag_setter!`, registers.rs
lines 28-36 and 150): write the raw flag byte. -/
def set_control2 (bus : Bus) (st : St) (val : Nat) : Outcome Unit × St :=
  write_flags bus st .Control2 val

/-- An axis of the sensor (lib.rs, enum `Axis`). -/
inductive Axis
  | X
  | Y
  | Z
deriving DecidableEq

/-- `impl From<Axis> for Register16` (lib.rs lines 126-134). -/
def Register16.ofAxis : Axis → Register16
  | .X => .X
  | .Y => .Y
  | .Z => .Z

/-- `QMC8553L::reset` (lib.rs lines 182-194): write SOFT_RST to Control2,
then write ROL_PNT to Control2, propagating the first failure. -/
def reset (bus : Bus) (st : St) : Outcome Unit × St :=
  match set_control2 bus st Control2.SOFT_RST with
  | (.ok _, st1) => set_control2 bus st1 Control2.ROL_PNT
  | (.err e, st1) => (.err e, st1)
  | (.panicked, st1) => (.panicked, st1)

/-- `QMC8553L::settings` (lib.rs lines 246-249): read the Settings register
byte and decode it with `From<u8>` (which can panic). -/
def settings (bus : Bus) (st : St) : Outcome Settings × St :=
  match read_raw bus st Settings.regaddr with
  | (.ok val, st') =>
    match settings_from_u8 val with
    | .ok s => (.ok s, st')
    | .panicked => (.panicked, st')
  | (.err e, st') => (.err e, st')
  | (.panicked, st') => (.panicked, st')

/-- `QMC8553L::change_settings` (lib.rs lines 252-256): write the encoded
Settings byte. -/
def change_settings (bus : Bus) (st : St) (set : Settings) : Outcome Unit × St :=
  write_raw bus st Settings.regaddr (u8_from_settings set)

/-- `QMC8553L::to_standby` (lib.rs lines 199-208): read and decode Settings,
re-encode, clear bits 1:0 with `&= 0b1111_1100`, write back, then set the
software standby flag. -/
def to_standby (bus : Bus) (st : St) : Outcome Unit × St :=
  match settings bus st with
  | (.ok s, st1) =>
    let set_val := u8_from_settings s &&& 0b11111100
    match write_raw bus st1 Settings.regaddr set_val with
    | (.ok _, st2) => (.ok (), { st2 with standby := true })
    | (.err e, st2) => (.err e, st2)
    | (.panicked, st2) => (.panicked, st2)
  | (.err e, st1) => (.err e, st1)
  | (.panicked, st1) => (.panicked, st1)

/-- `QMC8553L::on_standby` (lib.rs lines 214-216). -/
def on_standby (st : St) : Bool := st.standby

/-- `QMC8553L::is_ready` (lib.rs lines 219-221): read Status, test DRDY. -/
def is_ready (bus : Bus) (st : St) : Outcome Bool × St :=
  match get_status bus st with
  | (.ok v, st') => (.ok (flags_contain v Status.DRDY), st')
  | (.err e, st') => (.err e, st')
  | (.panicked, st') => (.panicked, st')

/-- `QMC8553L::read_all` (lib.rs lines 226-228). -/
def read_all (bus : Bus) (st : St) : Outcome (Int × Int × Int) × St :=
  read_data bus st

/-- `QMC8553L::read` (lib.rs lines 233-235). -/
def read (bus : Bus) (st : St) (axis : Axis) : Outcome Int × St :=
  read_reg16s bus st (Register16.ofAxis axis)

/-- `QMC8553L::get_temp` (lib.rs lines 241-243). -/
def get_temp (bus : Bus) (st : St) : Outcome Int × St :=
  read_reg16s bus st .TOUT

/-- The public operations other than `to_standby` that reach the raw
register-access layer. -/
inductive DriverOp
  | readAxis (a : Axis)
  | readAll
  | getTemp
  | getSettings
  | changeSettings (s : Settings)
  | isReady
  | doReset
deriving DecidableEq

/-- The driver state after running one such operation (the returned value is
irrelevant to the standby flag). -/
def runOp : DriverOp → Bus → St → St
  | .readAxis a, bus, st => (read bus st a).2
  | .readAll, bus, st => (read_all bus st).2
  | .getTemp, bus, st => (get_temp bus st).2
  | .getSettings, bus, st => (settings bus st).2
  | .changeSettings s, bus, st => (change_settings bus st s).2
  | .isReady, bus, st => (is_ready bus st).2
  | .doReset, bus, st => (reset bus st).2

/-- A bus on which every transaction succeeds and every byte read is 0. -/
def zeroBus : Bus := ⟨fun _ _ => .ok (fun _ => 0)⟩

/-- A bus on which every transaction fails with a transport error. -/
def failBus : Bus := ⟨fun _ _ => .error (.fault 0)⟩

/-- A bus whose reads always answer the byte stream `bs` (bytes past the end
of `bs` read as 0); writes succeed. -/
def constBus (bs : List Nat) : Bus := ⟨fun _ _ => .ok (fun i => bs.getD i 0)⟩

/-- The initial driver state: no transactions issued, not on standby. -/
def st0 : St := ⟨[], false⟩

theorem write_raw_hist (bus : Bus) (st : St) (a v : Nat) :
    (write_raw bus st a v).2.hist = st.hist ++ [Tx.write DEV_ADDR [a, v]] := by
  unfold write_raw
  dsimp only
  split <;> rfl

theorem write_raw_standby (bus : Bus) (st : St) (a v : Nat) :
    (write_raw bus st a v).2.standby = false := by
  unfold write_raw
  dsimp only
  split <;> rfl

theorem read_raw_hist (bus : Bus) (st : St) (a : Nat) :
    (read_raw bus st a).2.hist = st.hist ++ [Tx.writeRead DEV_ADDR [a] 1] := by
  unfold read_raw
  dsimp only
  split <;> rfl

theorem read_raw_standby (bus : Bus) (st : St) (a : Nat) :
    (read_raw bus st a).2.standby = false := by
  unfold read_raw
  dsimp only
  split <;> rfl

theorem read_reg16s_standby (bus : Bus) (st : St) (reg : Register16) :
    (read_reg16s bus st reg).2.standby = false := by
  unfold read_reg16s
  dsimp only
  split <;> rfl

theorem read_data_standby (bus : Bus) (st : St) :
    (read_data bus st).2.standby = false := by
  unfold read_data
  dsimp only
  split <;> rfl

theorem settings_standby (bus : Bus) (st : St) :
    ((settings bus st).2).standby = false := by
  unfold settings
  rcases h : read_raw bus st Settings.regaddr with ⟨o, st'⟩
  have hs : st'.standby = false := by
    have := read_raw_standby bus st Settings.regaddr
    rw [h] at this
    exact this
  cases o with
  | ok val =>
    dsimp only
    split <;> exact hs
  | err e => exact hs
  | panicked => exact hs

theorem get_status_standby (bus : Bus) (st : St) :
    ((get_status bus st).2).standby = false := by
  unfold get_status read_flags
  rcases h : read_raw bus st (FlagRegister.code .Status) with ⟨o, st'⟩
  have hs : st'.standby = false := by
    have := read_raw_standby bus st (FlagRegister.code .Status)
    rw [h] at this
    exact this
  cases o with
  | ok val => exact hs
  | err e => exact hs
  | panicked => exact hs

theorem is_ready_standby (bus : Bus) (st : St) :
    ((is_ready bus st).2).standby = false := by
  unfold is_ready
  rcases h : get_status bus st with ⟨o, st'⟩
  have hs : st'.standby = false := by
    have := get_status_standby bus st
    rw [h] at this
    exact this
  cases o with
  | ok val => exact hs
  | err e => exact hs
  | panicked => exact hs

theorem reset_standby (bus : Bus) (st : St) :
    ((reset bus st).2).standby = false := by
  unfold reset
  rcases h1 : set_control2 bus st Control2.SOFT_RST with ⟨o1, st1⟩
  have hs1 : st1.standby = false := by
    have := write_raw_standby bus st (FlagRegister.code .Control2) Control2.SOFT_RST
    rw [show set_control2 bus st Control2.SOFT_RST
          = write_raw bus st (FlagRegister.code .Control2) Control2.SOFT_RST from rfl] at h1
    rw [h1] at this
    exact this
  cases o1 with
  | ok a => exact write_raw_standby bus st1 (FlagRegister.code .Control2) Control2.ROL_PNT
  | err e => exact hs1
  | panicked => exact hs1

theorem to_standby_standby_iff (bus : Bus) (st : St) :
    (to_standby bus st).2.standby = true ↔ (to_standby bus st).1 = Outcome.ok () := by
  unfold to_standby
  rcases h1 : settings bus st with ⟨o1, st1⟩
  have hs1 : st1.standby = false := by
    have := settings_standby bus st
    rw [h1] at this
    exact this
  cases o1 with
  | ok s =>
    dsimp only
    rcases h2 : write_raw bus st1 Settings.regaddr (u8_from_settings s &&& 0b11111100)
      with ⟨o2, st2⟩
    have hs2 : st2.standby = false := by
      have := write_raw_standby bus st1 Settings.regaddr (u8_from_settings s &&& 0b11111100)
      rw [h2] at this
      exact this
    cases o2 with
    | ok a => simp
    | err e => simp [hs2]
    | panicked => simp [hs2]
  | err e => simp [hs1]
  | panicked => simp [hs1]

/-- C1: the claimed round-trip `Settings::from(u8::from(s)) == s` fails on
the code.  Evaluated at `Settings::default()` (the very input of the crate's
own `sanity` unit test, lib.rs lines 106-113): the decoder reads the ODR
field from bits [7:6] and the OSR field from bits [3:2] — swapped relative
to the encoder — so decoding the encoded default yields
`{ odr: OSR200, osr: OSR512, rng: RNG2G }`, not the default
`{ odr: OSR10, osr: OSR64, rng: RNG2G }`. -/
theorem c1_roundtrip_fails_at_default :
    settings_from_u8 (u8_from_settings Settings.default)
      = PanicOr.ok { odr := .OSR200, osr := .OSR512, rng := .RNG2G } ∧
    settings_from_u8 (u8_from_settings Settings.default)
      ≠ PanicOr.ok Settings.default := by
  decide

/-- C2 counterexample: decoding the byte 0x20, whose FullScale field
(bits [5:4]) is 0b10, does not return a distinct recoverable error value to
the caller — `From<u8> for Settings` has no error channel at all, and the
`FullScale::n(..).unwrap()` call panics, modelled as `PanicOr.panicked`
(no value, of any kind, is returned). -/
theorem c2_decode_invalid_is_panic :
    settings_from_u8 0x20 = PanicOr.panicked := by
  decide

/-- C2 (amended): for every byte whose FullScale field (bits [5:4]) equals
0b10 or 0b11, decoding the byte into Settings panics (`unwrap` of an
undefined enum code); it never silently substitutes a default variant and
never produces a transport error, but no recoverable InvalidEncoding error
value is returned either, since the conversion panics instead of
returning. -/
theorem c2_invalid_fullscale_panics (val : Nat)
    (h : (val &&& 0b00110000) >>> 4 = 2 ∨ (val &&& 0b00110000) >>> 4 = 3) :
    settings_from_u8 val = PanicOr.panicked := by
  have hle : val &&& 0b11000000 ≤ 0b11000000 := Nat.and_le_right
  have h4 : (val &&& 0b11000000) >>> 6 < 4 := by
    rw [Nat.shiftRight_eq_div_pow]
    omega
  unfold settings_from_u8
  rcases hodr : OutputDataRate.n ((val &&& 0b11000000) >>> 6) with _ | odr
  · exfalso
    revert hodr
    unfold OutputDataRate.n
    interval_cases ((val &&& 0b11000000) >>> 6) <;> simp
  · rcases h with h' | h' <;> rw [h'] <;> rfl

theorem c2_invalid_fullscale_panics_witness :
    ((0x30 &&& 0b00110000) >>> 4 = 2 ∨ (0x30 &&& 0b00110000) >>> 4 = 3) ∧
    settings_from_u8 0x30 = PanicOr.panicked :=
  ⟨Or.inr (by decide), c2_invalid_fullscale_panics 0x30 (Or.inr (by decide))⟩

/-- C3: the claimed little-endian burst decode fails on the code (modelled
for a little-endian target).  `i16_from_le` casts the array
`[val[1], val[0]]`, so each byte pair is swapped before the cast: on the
spec's buffer `[0x34,0x12,0x00,0x00,0xFF,0x7F]` the code returns
`(0x3412, 0, -129)`, not the claimed `(0x1234, 0, 0x7FFF)`. -/
theorem c3_burst_decode_swaps_bytes :
    (read_all (constBus [0x34, 0x12, 0x00, 0x00, 0xFF, 0x7F]) st0).1
      = Outcome.ok (0x3412, 0, -129) ∧
    ((0x3412 : Int), (0 : Int), (-129 : Int))
      ≠ ((0x1234 : Int), (0 : Int), (0x7FFF : Int)) := by
  constructor
  · rfl
  · decide

/-- C4: the claimed standby write-back fails on the code.  With the Settings
register holding 0b01011101, `to_standby` round-trips the byte through the
(field-swapping) decoder and encoder before masking, so it writes back
0b11010100, not the claimed 0b01011100: the ODR/OSR bits of the read byte
are not preserved. -/
theorem c4_standby_writeback_swapped :
    (to_standby (constBus [0b01011101]) st0).1 = Outcome.ok () ∧
    (to_standby (constBus [0b01011101]) st0).2.hist
      = [Tx.writeRead 0x0D [0x09] 1, Tx.write 0x0D [0x09, 0b11010100]] ∧
    (0b11010100 : Nat) ≠ 0b01011100 := by
  refine ⟨rfl, rfl, by decide⟩

/-- C5: the encoder places the OverSampleRatio code in bits [7:6], the
FullScale code in bits [5:4], the OutputDataRate code in bits [3:2], and
forces bit 0 to 1; since the contributions occupy disjoint bit ranges, the
encoded byte equals the bitwise OR of the independently shifted field
contributions plus bit 0, and each field can be read back from its own
bits. -/
theorem c5_encode_bit_layout (s : Settings) :
    u8_from_settings s
        = (s.osr.code <<< 6) ||| ((s.rng.code <<< 4) ||| ((s.odr.code <<< 2) ||| 1)) ∧
    (u8_from_settings s >>> 6) &&& 0b11 = s.osr.code ∧
    (u8_from_settings s >>> 4) &&& 0b11 = s.rng.code ∧
    (u8_from_settings s >>> 2) &&& 0b11 = s.odr.code ∧
    u8_from_settings s &&& 0b1 = 1 := by
  obtain ⟨odr, osr, rng⟩ := s
  cases odr <;> cases osr <;> cases rng <;> decide

/-- C6: every successful `reset` issues exactly two single-byte write
transactions to the Control2 register 0x0A — first SOFT_RST (0x80), then
ROL_PNT (0x40) — in that order, as separate transactions. -/
theorem c6_reset_two_writes_in_order (bus : Bus) (st : St)
    (h : (reset bus st).1 = Outcome.ok ()) :
    (reset bus st).2.hist
      = st.hist ++ [Tx.write 0x0D [0x0a, 0x80], Tx.write 0x0D [0x0a, 0x40]] := by
  unfold reset at h ⊢
  rcases h1 : set_control2 bus st Control2.SOFT_RST with ⟨o1, st1⟩
  rw [h1] at h
  have hh1 : st1.hist = st.hist ++ [Tx.write DEV_ADDR [0x0a, 0x80]] := by
    have := write_raw_hist bus st 0x0a 0x80
    rw [show set_control2 bus st Control2.SOFT_RST = write_raw bus st 0x0a 0x80 from rfl]
      at h1
    rw [h1] at this
    exact this
  cases o1 with
  | ok a =>
    dsimp only at h ⊢
    rw [show set_control2 bus st1 Control2.ROL_PNT = write_raw bus st1 0x0a 0x40 from rfl]
    rw [write_raw_hist bus st1 0x0a 0x40, hh1]
    simp [DEV_ADDR]
  | err e => simp at h
  | panicked => simp at h

theorem c6_reset_two_writes_in_order_witness :
    (reset zeroBus st0).1 = Outcome.ok () ∧
    (reset zeroBus st0).2.hist
      = st0.hist ++ [Tx.write 0x0D [0x0a, 0x80], Tx.write 0x0D [0x0a, 0x40]] :=
  ⟨rfl, c6_reset_two_writes_in_order zeroBus st0 rfl⟩

/-- C7: any of the other public operations that reach the raw register layer
(per-axis read, burst read, temperature read, settings read, settings write,
readiness check, reset) leaves the software standby flag false — the flag is
cleared when the bus handle is borrowed — and only a completed `to_standby`
leaves it true: after `to_standby` the flag is true exactly when the whole
operation succeeded. -/
theorem c7_standby_flag_software_tracking :
    (∀ op bus st, (runOp op bus st).standby = false) ∧
    (∀ bus st,
      (to_standby bus st).2.standby = true ↔ (to_standby bus st).1 = Outcome.ok ()) := by
  constructor
  · intro op bus st
    cases op with
    | readAxis a => exact read_reg16s_standby bus st _
    | readAll => exact read_data_standby bus st
    | getTemp => exact read_reg16s_standby bus st _
    | getSettings => exact settings_standby bus st
    | changeSettings s => exact write_raw_standby bus st _ _
    | isReady => exact is_ready_standby bus st
    | doReset => exact reset_standby bus st
  · exact to_standby_standby_iff

/-- C8: every single-byte register write is one bus write transaction of the
two bytes [register address, value]; every register read is one
write-then-read transaction writing [register address] and reading the
requested length (1 byte for `read_raw`, 2 for `read_reg16s`, 6 for
`read_data`); all transactions go to the fixed device address 0x0D. -/
theorem c8_bus_protocol_shape (bus : Bus) (st : St) (regaddr val : Nat)
    (reg : Register16) :
    (write_raw bus st regaddr val).2.hist
      = st.hist ++ [Tx.write 0x0D [regaddr, val]] ∧
    (read_raw bus st regaddr).2.hist
      = st.hist ++ [Tx.writeRead 0x0D [regaddr] 1] ∧
    (read_reg16s bus st reg).2.hist
      = st.hist ++ [Tx.writeRead 0x0D [reg.code] 2] ∧
    (read_data bus st).2.hist
      = st.hist ++ [Tx.writeRead 0x0D [0x00] 6] := by
  refine ⟨write_raw_hist bus st regaddr val, read_raw_hist bus st regaddr, ?_, ?_⟩
  · unfold read_reg16s
    dsimp only
    split <;> rfl
  · unfold read_data
    dsimp only
    split <;> rfl

theorem read_raw_ne_panic (bus : Bus) (st : St) (a : Nat) :
    (read_raw bus st a).1 ≠ Outcome.panicked := by
  unfold read_raw
  dsimp only
  split <;> exact fun hh => Outcome.noConfusion hh

theorem get_status_ne_panic (bus : Bus) (st : St) :
    (get_status bus st).1 ≠ Outcome.panicked := by
  unfold get_status read_flags
  rcases h : read_raw bus st (FlagRegister.code .Status) with ⟨o, st'⟩
  have hnp := read_raw_ne_panic bus st (FlagRegister.code .Status)
  rw [h] at hnp
  cases o with
  | ok v => exact fun hh => Outcome.noConfusion hh
  | err e => exact fun hh => Outcome.noConfusion hh
  | panicked => exact absurd rfl hnp

/-- C9: reading the Status flags is total over all byte values: whenever the
bus transaction succeeds, `get_status` returns the byte masked to the
defined flag bits (DOR, OVL, DRDY) and `is_ready` returns Ok of the DRDY
bit (bit 0) of the byte read — it never panics and never turns "not ready"
into an error. -/
theorem c9_status_read_total :
    (∀ bus st, (is_ready bus st).1 ≠ Outcome.panicked) ∧
    (∀ (bus : Bus) (st : St) (f : Nat → Nat),
      bus.respond st.hist (Tx.writeRead 0x0D [0x06] 1) = .ok f →
        (get_status bus st).1 = Outcome.ok ((f 0 % 256) &&& 0b111) ∧
        (is_ready bus st).1 = Outcome.ok ((f 0).testBit 0)) := by
  constructor
  · intro bus st
    unfold is_ready
    rcases h : get_status bus st with ⟨o, st'⟩
    have hnp := get_status_ne_panic bus st
    rw [h] at hnp
    cases o with
    | ok v => exact fun hh => Outcome.noConfusion hh
    | err e => exact fun hh => Outcome.noConfusion hh
    | panicked => exact absurd rfl hnp
  · intro bus st f hresp
    have hget : (get_status bus st).1 = Outcome.ok ((f 0 % 256) &&& 0b111) := by
      unfold get_status read_flags read_raw
      dsimp only [FlagRegister.code, DEV_ADDR, i2cBorrow]
      rw [hresp]
      rfl
    refine ⟨hget, ?_⟩
    unfold is_ready
    rcases h : get_status bus st with ⟨o, st'⟩
    rw [h] at hget
    cases o with
    | ok v =>
      have hv : v = (f 0 % 256) &&& 0b111 := by
        injection hget
      subst hv
      dsimp only
      have h71 : (7 : Nat) &&& 1 = 1 := rfl
      have hmod : f 0 % 256 % 2 = f 0 % 2 := Nat.mod_mod_of_dvd _ (by norm_num)
      have h1 : (f 0 % 256 &&& 7) &&& 1 = f 0 % 2 := by
        rw [Nat.and_assoc, h71, Nat.and_one_is_mod, hmod]
      refine congrArg Outcome.ok ?_
      rw [Bool.eq_iff_iff]
      simp [flags_contain, Status.DRDY, h1]
    | err e => exact absurd hget (fun hh => Outcome.noConfusion hh)
    | panicked => exact absurd hget (fun hh => Outcome.noConfusion hh)

theorem c9_status_read_total_witness :
    (constBus [0xfe]).respond st0.hist (Tx.writeRead 0x0D [0x06] 1)
        = .ok (fun i => [0xfe].getD i 0) ∧
    (get_status (constBus [0xfe]) st0).1 = Outcome.ok ((0xfe % 256) &&& 0b111) ∧
    (is_ready (constBus [0xfe]) st0).1 = Outcome.ok ((0xfe : Nat).testBit 0) :=
  ⟨rfl, (c9_status_read_total.2 (constBus [0xfe]) st0 (fun i => [0xfe].getD i 0) rfl).1,
    (c9_status_read_total.2 (constBus [0xfe]) st0 (fun i => [0xfe].getD i 0) rfl).2⟩

/-- C10: if `to_standby` returns a transport error — whether from its
settings read or from its write-back — the software standby flag is false
afterwards: the flag is cleared when the bus handle is borrowed for the
first transaction and set to true only after every transaction has
succeeded. -/
theorem c10_failed_standby_leaves_flag_false (bus : Bus) (st : St) (e : TransportError)
    (h : (to_standby bus st).1 = Outcome.err e) :
    on_standby (to_standby bus st).2 = false := by
  unfold on_standby
  cases hb : (to_standby bus st).2.standby
  · rfl
  · have hok := (to_standby_standby_iff bus st).mp hb
    rw [h] at hok
    exact Outcome.noConfusion hok

theorem c10_failed_standby_leaves_flag_false_witness :
    (to_standby failBus st0).1 = Outcome.err (.fault 0) ∧
    on_standby (to_standby failBus st0).2 = false :=
  ⟨rfl, c10_failed_standby_leaves_flag_false failBus st0 (.fault 0) rfl⟩
